import Mathlib

/-!
Verification of the realtime audio / session core of the IELTS
speaking-practice client.  The TypeScript source is shallowly embedded:
each definition mirrors one function or code block of the source, with
JavaScript truthiness guards made explicit.  Times and audio samples are
modelled as rationals, session ids and timer ids as naturals.
-/

namespace IELTS

/-- Speaker tag of a transcript line (the strings `'Candidate'` /
`'Examiner'` in the source). -/
inductive Speaker where
  | candidate
  | examiner
deriving DecidableEq

/-- One transcript line `{speaker, text}` as kept in `this.transcripts`
(variant without a finality flag: `src/index.tsx` and the main IELTS
component of `src/unnamed/part_001`). -/
structure TranscriptLine where
  speaker : Speaker
  text : String
deriving DecidableEq

/-- One transcript line `{speaker, text, isFinal}` of the variant that
tracks finality (first component of `src/unnamed/part_001`). -/
structure TranscriptLineF where
  speaker : Speaker
  text : String
  isFinal : Bool
deriving DecidableEq

/-- Transcript-reconciliation step for one inbound fragment, variant
without finality (`initSession.onmessage`, transcript branches of
`src/index.tsx` lines 531-567).  The guard `if (transcription?.text)`
drops empty text; otherwise the fragment text is appended to the last
line when its speaker matches, else a new line is appended. -/
def applyFragment (ts : List TranscriptLine) (sp : Speaker) (txt : String) :
    List TranscriptLine :=
  if txt = "" then ts
  else
    match ts.getLast? with
    | some last =>
        if last.speaker = sp then
          ts.dropLast ++ [⟨sp, last.text ++ txt⟩]
        else
          ts ++ [⟨sp, txt⟩]
    | none => ts ++ [⟨sp, txt⟩]

/-- Fold `applyFragment` over a sequence of inbound fragments. -/
def applyFragments (ts : List TranscriptLine)
    (frags : List (Speaker × String)) : List TranscriptLine :=
  frags.foldl (fun acc f => applyFragment acc f.1 f.2) ts

/-- Transcript-reconciliation step of the variant that tracks finality
(`src/unnamed/part_001` lines 179-225): the fragment is merged into the
last line only when the speaker matches and the last line is not final;
the merged or new line records the fragment's own final marker. -/
def applyFragmentF (ts : List TranscriptLineF) (sp : Speaker) (txt : String)
    (fin : Bool) : List TranscriptLineF :=
  if txt = "" then ts
  else
    match ts.getLast? with
    | some last =>
        if last.speaker = sp ∧ last.isFinal = false then
          ts.dropLast ++ [⟨sp, last.text ++ txt, fin⟩]
        else
          ts ++ [⟨sp, txt, fin⟩]
    | none => ts ++ [⟨sp, txt, fin⟩]

/-- Claim C1: for every inbound transcript fragment with (nonempty) text,
the reconciliation step merges it into the last line by string
concatenation when the last line has the same speaker (and, in the
variant tracking finality, is not yet final), and appends a new line
exactly when the last line's speaker differs (or the list is empty, or -
in the finality variant - the last line is already final); the example
sequence [(Candidate,"Hel"), (Candidate,"lo"), (Examiner,"Hi")] yields
[(Candidate,"Hello"), (Examiner,"Hi")]. -/
theorem transcript_reconciliation_spec
    (ts : List TranscriptLine) (tsf : List TranscriptLineF)
    (sp : Speaker) (txt : String) (fin : Bool) (h : txt ≠ "") :
    (ts.getLast? = none → applyFragment ts sp txt = ts ++ [⟨sp, txt⟩]) ∧
    (∀ last, ts.getLast? = some last →
      (last.speaker = sp →
        applyFragment ts sp txt = ts.dropLast ++ [⟨sp, last.text ++ txt⟩]) ∧
      (last.speaker ≠ sp →
        applyFragment ts sp txt = ts ++ [⟨sp, txt⟩])) ∧
    (∀ last, tsf.getLast? = some last →
      (last.speaker = sp → last.isFinal = false →
        applyFragmentF tsf sp txt fin =
          tsf.dropLast ++ [⟨sp, last.text ++ txt, fin⟩]) ∧
      (last.speaker ≠ sp ∨ last.isFinal = true →
        applyFragmentF tsf sp txt fin = tsf ++ [⟨sp, txt, fin⟩])) ∧
    applyFragments []
        [(Speaker.candidate, "Hel"), (Speaker.candidate, "lo"),
          (Speaker.examiner, "Hi")] =
      [⟨Speaker.candidate, "Hello"⟩, ⟨Speaker.examiner, "Hi"⟩] := by
  refine ⟨?_, ?_, ?_, ?_⟩
  · intro hnone
    simp [applyFragment, h, hnone]
  · intro last hlast
    constructor
    · intro hsp
      simp [applyFragment, h, hlast, hsp]
    · intro hsp
      simp [applyFragment, h, hlast, hsp]
  · intro last hlast
    constructor
    · intro hsp hfin
      simp [applyFragmentF, h, hlast, hsp, hfin]
    · intro hor
      rcases hor with hsp | hfin
      · simp [applyFragmentF, h, hlast, hsp]
      · simp [applyFragmentF, h, hlast, hfin]
  · decide

/-- Concrete instantiation of the C1 theorem: appending a same-speaker
fragment to a one-line transcript concatenates the text. -/
theorem transcript_reconciliation_spec_witness :
    applyFragment [⟨Speaker.candidate, "a"⟩] Speaker.candidate "x" =
      [⟨Speaker.candidate, "ax"⟩] := by
  have h := (transcript_reconciliation_spec
      [⟨Speaker.candidate, "a"⟩] [] Speaker.candidate "x" false
      (by decide)).2.1 ⟨Speaker.candidate, "a"⟩ (by decide)
  simpa using h.1 rfl

/-! ## Audio output scheduler (audio branch of `initSession.onmessage`,
`src/index.tsx` lines 504-528) -/

/-- One scheduling step: `nextStartTime = max(nextStartTime, currentTime)`,
`source.start(nextStartTime)`, `nextStartTime += buffer.duration`.
Returns the scheduled start time and the new anchor. -/
def scheduleChunk (nextStartTime clock dur : ℚ) : ℚ × ℚ :=
  let startAt := max nextStartTime clock
  (startAt, startAt + dur)

/-- Run the scheduler over the arriving decoded buffers, each given as a
pair (output-clock value at arrival, buffer duration); returns the
scheduled (start, duration) intervals in arrival order. -/
def runScheduler (nst : ℚ) : List (ℚ × ℚ) → List (ℚ × ℚ)
  | [] => []
  | (clock, dur) :: rest =>
      ((scheduleChunk nst clock dur).1, dur) ::
        runScheduler (scheduleChunk nst clock dur).2 rest

/-- The scheduler keeps pace: at each buffer arrival the schedule anchor
has not fallen behind the output clock. -/
def keepsPace (nst : ℚ) : List (ℚ × ℚ) → Bool
  | [] => true
  | (clock, dur) :: rest =>
      decide (clock ≤ nst) && keepsPace (scheduleChunk nst clock dur).2 rest

/-- Adjacent scheduled intervals chain gaplessly: each buffer starts
exactly when the previous one ends. -/
def backToBack : List (ℚ × ℚ) → Bool
  | [] => true
  | [_] => true
  | (s1, d1) :: (s2, d2) :: rest =>
      decide (s2 = s1 + d1) && backToBack ((s2, d2) :: rest)

/-- Scheduled intervals never overlap: each buffer starts no earlier than
the end of the previous one. -/
def noOverlap : List (ℚ × ℚ) → Bool
  | [] => true
  | [_] => true
  | (s1, d1) :: (s2, d2) :: rest =>
      decide (s1 + d1 ≤ s2) && noOverlap ((s2, d2) :: rest)

/-- The first interval scheduled by a run starts no earlier than the
initial anchor. -/
theorem runScheduler_head_start_ge (nst : ℚ) (chunks : List (ℚ × ℚ)) :
    ∀ s d, (runScheduler nst chunks).head? = some (s, d) → nst ≤ s := by
  cases chunks with
  | nil => intro s d h; simp [runScheduler] at h
  | cons c rest =>
      intro s d h
      obtain ⟨clock, dur⟩ := c
      simp [runScheduler, scheduleChunk] at h
      obtain ⟨h1, _⟩ := h
      rw [← h1]
      exact le_max_left _ _

/-- Each scheduled start is at or after the output clock at arrival. -/
theorem runScheduler_never_past (nst : ℚ) (chunks : List (ℚ × ℚ)) :
    List.Forall₂ (fun out inp => (inp : ℚ × ℚ).1 ≤ (out : ℚ × ℚ).1)
      (runScheduler nst chunks) chunks := by
  induction chunks generalizing nst with
  | nil => simp [runScheduler]
  | cons c rest ih =>
      obtain ⟨clock, dur⟩ := c
      refine List.Forall₂.cons ?_ (ih _)
      exact le_max_right _ _

/-- Scheduled intervals never overlap, for any arrival clocks. -/
theorem runScheduler_noOverlap (nst : ℚ) (chunks : List (ℚ × ℚ)) :
    noOverlap (runScheduler nst chunks) = true := by
  induction chunks generalizing nst with
  | nil => simp [runScheduler, noOverlap]
  | cons c rest ih =>
      obtain ⟨clock, dur⟩ := c
      cases rest with
      | nil => simp [runScheduler, noOverlap]
      | cons c2 rest2 =>
          obtain ⟨clock2, dur2⟩ := c2
          have hh := ih (scheduleChunk nst clock dur).2
          simp only [runScheduler] at hh
          simp only [runScheduler, noOverlap, Bool.and_eq_true,
            decide_eq_true_eq]
          refine ⟨?_, hh⟩
          calc (scheduleChunk nst clock dur).1 + dur
              = (scheduleChunk nst clock dur).2 := rfl
            _ ≤ (scheduleChunk (scheduleChunk nst clock dur).2 clock2 dur2).1 :=
                le_max_left _ _

/-- When the scheduler keeps pace, the produced intervals chain
back-to-back. -/
theorem runScheduler_backToBack (nst : ℚ) (chunks : List (ℚ × ℚ))
    (h : keepsPace nst chunks = true) :
    backToBack (runScheduler nst chunks) = true := by
  induction chunks generalizing nst with
  | nil => simp [runScheduler, backToBack]
  | cons c rest ih =>
      obtain ⟨clock, dur⟩ := c
      simp only [keepsPace, Bool.and_eq_true, decide_eq_true_eq] at h
      obtain ⟨hle, hrest⟩ := h
      cases rest with
      | nil => simp [runScheduler, backToBack]
      | cons c2 rest2 =>
          obtain ⟨clock2, dur2⟩ := c2
          have htail := ih _ hrest
          simp only [keepsPace, Bool.and_eq_true, decide_eq_true_eq] at hrest
          simp only [runScheduler] at htail
          simp only [runScheduler, backToBack, Bool.and_eq_true,
            decide_eq_true_eq]
          refine ⟨?_, htail⟩
          have e1 : (scheduleChunk nst clock dur).1 = nst := by
            simp [scheduleChunk, max_eq_left hle]
          have e2 : (scheduleChunk nst clock dur).2 = nst + dur := by
            simp [scheduleChunk, max_eq_left hle]
          have e3 : (scheduleChunk (scheduleChunk nst clock dur).2 clock2
              dur2).1 = (scheduleChunk nst clock dur).2 :=
            max_eq_left hrest.1
          rw [e3, e2, e1]

/-- Claim C2: each arriving buffer is scheduled at
max(nextStartTime, currentOutputClock) and the anchor advances by its
duration; under the keeps-pace condition consecutive buffers chain
back-to-back; intervals never overlap; and no buffer starts before the
output clock observed at its arrival. -/
theorem audio_scheduling_spec (nst : ℚ) (chunks : List (ℚ × ℚ))
    (h : keepsPace nst chunks = true) :
    (∀ a c d, scheduleChunk a c d = (max a c, max a c + d)) ∧
    backToBack (runScheduler nst chunks) = true ∧
    noOverlap (runScheduler nst chunks) = true ∧
    List.Forall₂ (fun out inp => (inp : ℚ × ℚ).1 ≤ (out : ℚ × ℚ).1)
      (runScheduler nst chunks) chunks :=
  ⟨fun _ _ _ => rfl, runScheduler_backToBack nst chunks h,
    runScheduler_noOverlap nst chunks, runScheduler_never_past nst chunks⟩

/-- Concrete instantiation of the C2 theorem: three buffers arriving on
schedule are played back-to-back. -/
theorem audio_scheduling_spec_witness :
    keepsPace 0 [(0, 2), (1, 3), (5, 1)] = true ∧
    backToBack (runScheduler 0 [(0, 2), (1, 3), (5, 1)]) = true := by
  have hp : keepsPace 0 [(0, 2), (1, 3), (5, 1)] = true := by
    norm_num [keepsPace, scheduleChunk]
  exact ⟨hp, (audio_scheduling_spec 0 [(0, 2), (1, 3), (5, 1)] hp).2.1⟩

/-! ## Interruption handling (`if (interrupted)` branch of
`initSession.onmessage`, `src/index.tsx` lines 569-576) -/

/-- Scheduler-side state touched by the interruption handler: the
schedule anchor, the set of active (pending or playing) sources and the
sources stopped so far.  Sources are identified by numeric ids. -/
structure SchedulerState where
  nextStartTime : ℚ
  activeSources : List Nat
  stoppedSources : List Nat
deriving DecidableEq

/-- One iteration of the interruption loop body:
`source.stop(); this.sources.delete(source);`. -/
def stopOne (st : SchedulerState) (src : Nat) : SchedulerState :=
  { st with
    activeSources := st.activeSources.erase src
    stoppedSources := st.stoppedSources ++ [src] }

/-- The interruption branch: stop every source in `this.sources`,
deleting each from the set, then reset `nextStartTime` to 0. -/
def handleInterrupted (st : SchedulerState) : SchedulerState :=
  let st1 := st.activeSources.foldl stopOne st
  { st1 with nextStartTime := 0 }

theorem foldl_stopOne (iter : List Nat) (st : SchedulerState) :
    iter.foldl stopOne st =
      ⟨st.nextStartTime, iter.foldl (fun a x => a.erase x) st.activeSources,
        st.stoppedSources ++ iter⟩ := by
  induction iter generalizing st with
  | nil => simp
  | cons a rest ih => simp [stopOne, ih]

theorem foldl_erase_self (l : List Nat) :
    l.foldl (fun a x => a.erase x) l = [] := by
  induction l with
  | nil => rfl
  | cons a rest ih =>
      have step : (a :: rest).foldl (fun a x => a.erase x) (a :: rest)
          = rest.foldl (fun a x => a.erase x) rest := by
        simp [List.erase_cons_head]
      rw [step, ih]

/-- Claim C3: handling an interruption stops every active source, leaves
the active set empty and resets the schedule anchor to 0, so the next
buffer is scheduled at max(0, clock) = clock (the current output clock)
for any nonnegative clock value. -/
theorem interruption_resets_scheduler (st : SchedulerState)
    (clock dur : ℚ) (hclock : 0 ≤ clock) :
    (handleInterrupted st).activeSources = [] ∧
    (handleInterrupted st).nextStartTime = 0 ∧
    (∀ s ∈ st.activeSources, s ∈ (handleInterrupted st).stoppedSources) ∧
    (scheduleChunk (handleInterrupted st).nextStartTime clock dur).1
      = clock := by
  have hrun : handleInterrupted st =
      ⟨0, [], st.stoppedSources ++ st.activeSources⟩ := by
    simp [handleInterrupted, foldl_stopOne, foldl_erase_self]
  refine ⟨by simp [hrun], by simp [hrun], ?_, ?_⟩
  · intro s hs
    simp [hrun, hs]
  · rw [hrun]
    show max 0 clock = clock
    exact max_eq_right hclock

/-- Concrete instantiation of the C3 theorem: after an interruption with
two queued sources, the set is empty and the next buffer starts at the
current clock. -/
theorem interruption_resets_scheduler_witness :
    (handleInterrupted ⟨10, [4, 7], []⟩).activeSources = [] ∧
    (handleInterrupted ⟨10, [4, 7], []⟩).nextStartTime = 0 ∧
    (scheduleChunk (handleInterrupted ⟨10, [4, 7], []⟩).nextStartTime
      3 2).1 = 3 := by
  have h := interruption_resets_scheduler ⟨10, [4, 7], []⟩ 3 2 (by decide)
  exact ⟨h.1, h.2.1, h.2.2.2⟩

/-! ## Application state of the IELTS component
(second component of `src/unnamed/part_001`, lines 390-2312) -/

/-- The part identifiers `'part1' | 'part2' | 'part3'`. -/
inductive PartId where
  | part1
  | part2
  | part3
deriving DecidableEq

/-- The `part2State` phases. -/
inductive Part2Phase where
  | idle
  | generating
  | preparing
  | speaking
  | finished
deriving DecidableEq

/-- A generated Part 2 cue card `{description, points}`. -/
structure CueCard where
  description : String
  points : List String
deriving DecidableEq

/-- The component fields the verified operations read or write.  Session
ids and timer ids are naturals (`nextUuid` supplies fresh session ids);
an open live session is represented by the system instruction it was
opened with; audio nodes and the media stream are presence booleans. -/
@[ext]
structure AppState where
  isRecording : Bool
  transcripts : List TranscriptLine
  supabaseSession : Bool
  currentSessionId : Option Nat
  nextUuid : Nat
  userCredits : Option Int
  isOutOfCreditsModalOpen : Bool
  creditUsageInterval : Option Nat
  currentPart : Option PartId
  part2State : Part2Phase
  part2CueCard : Option CueCard
  part2Topic : Option String
  part2TopicForPart3 : Option String
  part2PreparationTimeLeft : Int
  part2SpeakingTimeLeft : Int
  part2TimerInterval : Option Nat
  isIntroModalOpen : Bool
  isIntroConfirmed : Bool
  introModalContent : Option PartId
  session : Option String
  mediaStream : Bool
  sourceNode : Bool
  scriptProcessorNode : Bool
  inputAudioContext : Bool
deriving DecidableEq

/-- JavaScript truthiness of a nullable string (null and "" are falsy). -/
def strTruthy : Option String → Bool
  | none => false
  | some s => s != ""

/-- JavaScript truthiness of a nullable numeric id (null and 0 are
falsy). -/
def natTruthy : Option Nat → Bool
  | none => false
  | some n => n != 0

/-- Externally visible cleanup/side-effect steps, recorded as events. -/
inductive CleanupEvent where
  | clearPartTimer
  | clearCreditTimer
  | persistTranscript (sessionId : Option Nat) (lines : List TranscriptLine)
  | processFeedback
  | closeSession
  | disconnectCapture
  | releaseMedia
deriving DecidableEq

/-- `saveCurrentSessionHistory` (lines 1240-1269): guarded by
`if (!supabaseSession || !currentSessionId || transcripts.length === 0)`;
on passing the guard it inserts the transcript rows once.  Modelled as
the emitted persistence event; the insert response (which refreshes the
local history cache) is external and not modelled. -/
def saveCurrentSessionHistory (s : AppState) : List CleanupEvent :=
  if !s.supabaseSession || s.currentSessionId.isNone
      || s.transcripts.length == 0 then []
  else [CleanupEvent.persistTranscript s.currentSessionId s.transcripts]

/-- `processMissingFeedback` (lines 1271-1374): guarded by
`if (!client || !supabaseSession)`; the client exists from construction
on.  The generation/backoff loop talks only to external services and is
modelled as one emitted event. -/
def processMissingFeedback (s : AppState) : List CleanupEvent :=
  if !s.supabaseSession then [] else [CleanupEvent.processFeedback]

/-- First block of `stopRecording` (lines 1595-1598):
`if (currentPart === 'part2' && part2Topic) { part2TopicForPart3 =
part2Topic; part2State = 'finished'; }`. -/
def carryPart2Topic (s : AppState) : AppState :=
  if s.currentPart == some PartId.part2 && strTruthy s.part2Topic then
    { s with
      part2TopicForPart3 := s.part2Topic
      part2State := Part2Phase.finished }
  else s

/-- `if (part2TimerInterval) { clearInterval(...); part2TimerInterval =
null; }` (lines 1600-1603). -/
def clearPart2TimerStep (s : AppState) : AppState × List CleanupEvent :=
  if natTruthy s.part2TimerInterval then
    ({ s with part2TimerInterval := none }, [CleanupEvent.clearPartTimer])
  else (s, [])

/-- `if (creditUsageInterval) { clearInterval(...); creditUsageInterval =
null; }` (lines 1605-1608). -/
def clearCreditTimerStep (s : AppState) : AppState × List CleanupEvent :=
  if natTruthy s.creditUsageInterval then
    ({ s with creditUsageInterval := none }, [CleanupEvent.clearCreditTimer])
  else (s, [])

/-- `if (transcripts.length > 0) { await saveCurrentSessionHistory();
processMissingFeedback(); }` (lines 1610-1613). -/
def persistStep (s : AppState) : List CleanupEvent :=
  if s.transcripts.length > 0
  then saveCurrentSessionHistory s ++ processMissingFeedback s else []

/-- `if (session) { session.close(); session = null; }`
(lines 1617-1620). -/
def closeSessionStep (s : AppState) : AppState × List CleanupEvent :=
  if s.session.isSome then
    ({ s with session := none }, [CleanupEvent.closeSession])
  else (s, [])

/-- `if (scriptProcessorNode && sourceNode && inputAudioContext) {
...disconnect(); }` followed by nulling both node fields
(lines 1622-1628). -/
def disconnectStep (s : AppState) : AppState × List CleanupEvent :=
  ({ s with scriptProcessorNode := false, sourceNode := false },
    if s.scriptProcessorNode && s.sourceNode && s.inputAudioContext
    then [CleanupEvent.disconnectCapture] else [])

/-- `if (mediaStream) { tracks.forEach(stop); mediaStream = null; }`
(lines 1630-1633). -/
def releaseMediaStep (s : AppState) : AppState × List CleanupEvent :=
  if s.mediaStream then
    ({ s with mediaStream := false }, [CleanupEvent.releaseMedia])
  else (s, [])

/-- `stopRecording` (lines 1591-1634): the (inoperative) early-return
guard, then the blocks above in source order, with `isRecording = false`
set between the persistence block and the session close. -/
def stopRecording (s : AppState) : AppState × List CleanupEvent :=
  if !s.isRecording && !s.mediaStream && !s.inputAudioContext then (s, [])
  else
    let s1 := carryPart2Topic s
    let r2 := clearPart2TimerStep s1
    let r3 := clearCreditTimerStep r2.1
    let e3 := persistStep r3.1
    let s4 := { r3.1 with isRecording := false }
    let r5 := closeSessionStep s4
    let r6 := disconnectStep r5.1
    let r7 := releaseMediaStep r6.1
    (r7.1, r2.2 ++ r3.2 ++ e3 ++ r5.2 ++ r6.2 ++ r7.2)

/-- `stopCurrentSession` (lines 1636-1640). -/
def stopCurrentSession (s : AppState) : AppState × List CleanupEvent :=
  if s.isRecording then stopRecording s else (s, [])

/-- The credit guard `userCredits !== null && userCredits <= 0` used by
`startRecording` and `handlePartSelect`. -/
def creditsExhausted : Option Int → Bool
  | none => false
  | some c => decide (c ≤ 0)

/-- Outcomes of the external operations a recording start depends on:
whether `client.live.connect` produces a session, whether `getUserMedia`
grants the microphone, and the id returned by `window.setInterval`. -/
structure Env where
  connectOk : Bool
  micOk : Bool
  timerId : Nat
deriving DecidableEq

/-- `startRecording(systemInstruction, ...)` (lines 1527-1589): credit
guard, re-entry guard, transcript reset and fresh session id, session
open (`initSession`; on failure the previous `session` value is kept and
the `if (!this.session)` check aborts), then microphone acquisition,
capture wiring, the recording flag and the credit-poll timer; a
microphone failure lands in the catch block, which calls
`stopRecording`. -/
def startRecording (s : AppState) (env : Env) (instr : String) :
    AppState × List CleanupEvent :=
  if creditsExhausted s.userCredits then
    ({ s with isOutOfCreditsModalOpen := true }, [])
  else if s.isRecording then (s, [])
  else
    let s :=
      { s with
        transcripts := []
        currentSessionId := some s.nextUuid
        nextUuid := s.nextUuid + 1 }
    let s := if env.connectOk then { s with session := some instr } else s
    if s.session.isNone then (s, [])
    else if env.micOk then
      ({ s with
          mediaStream := true
          sourceNode := true
          scriptProcessorNode := true
          isRecording := true
          creditUsageInterval := some env.timerId }, [])
    else stopRecording s

theorem carryPart2Topic_eq (s : AppState) :
    carryPart2Topic s =
      { s with
        part2TopicForPart3 :=
          if s.currentPart == some PartId.part2 && strTruthy s.part2Topic
          then s.part2Topic else s.part2TopicForPart3
        part2State :=
          if s.currentPart == some PartId.part2 && strTruthy s.part2Topic
          then Part2Phase.finished else s.part2State } := by
  unfold carryPart2Topic
  split_ifs <;> rfl

theorem clearPart2TimerStep_eq (s : AppState) :
    clearPart2TimerStep s =
      ({ s with
          part2TimerInterval :=
            if natTruthy s.part2TimerInterval then none
            else s.part2TimerInterval },
        if natTruthy s.part2TimerInterval
        then [CleanupEvent.clearPartTimer] else []) := by
  unfold clearPart2TimerStep
  split_ifs <;> rfl

theorem clearCreditTimerStep_eq (s : AppState) :
    clearCreditTimerStep s =
      ({ s with
          creditUsageInterval :=
            if natTruthy s.creditUsageInterval then none
            else s.creditUsageInterval },
        if natTruthy s.creditUsageInterval
        then [CleanupEvent.clearCreditTimer] else []) := by
  unfold clearCreditTimerStep
  split_ifs <;> rfl

theorem closeSessionStep_eq (s : AppState) :
    closeSessionStep s =
      ({ s with session := none },
        if s.session.isSome then [CleanupEvent.closeSession] else []) := by
  obtain ⟨rec, ts, sb, sid, nid, cr, oocm, cti, cp, p2s, cc, pt, ptf, ppl, psl,
    pti, imo, icf, imc, sess, ms, sn, spn, iac⟩ := s
  unfold closeSessionStep
  cases sess <;> rfl

theorem releaseMediaStep_eq (s : AppState) :
    releaseMediaStep s =
      ({ s with mediaStream := false },
        if s.mediaStream then [CleanupEvent.releaseMedia] else []) := by
  obtain ⟨rec, ts, sb, sid, nid, cr, oocm, cti, cp, p2s, cc, pt, ptf, ppl, psl,
    pti, imo, icf, imc, sess, ms, sn, spn, iac⟩ := s
  unfold releaseMediaStep
  cases ms <;> rfl

/-- The state after a `stopRecording` run, in closed form. -/
theorem stopRecording_fst (s : AppState) :
    (stopRecording s).1 =
      if !s.isRecording && !s.mediaStream && !s.inputAudioContext then s
      else
        { s with
          part2TopicForPart3 :=
            if s.currentPart == some PartId.part2 && strTruthy s.part2Topic
            then s.part2Topic else s.part2TopicForPart3
          part2State :=
            if s.currentPart == some PartId.part2 && strTruthy s.part2Topic
            then Part2Phase.finished else s.part2State
          part2TimerInterval :=
            if natTruthy s.part2TimerInterval then none
            else s.part2TimerInterval
          creditUsageInterval :=
            if natTruthy s.creditUsageInterval then none
            else s.creditUsageInterval
          isRecording := false
          session := none
          scriptProcessorNode := false
          sourceNode := false
          mediaStream := false } := by
  simp only [stopRecording, carryPart2Topic_eq, clearPart2TimerStep_eq,
    clearCreditTimerStep_eq, closeSessionStep_eq, disconnectStep,
    releaseMediaStep_eq]
  split_ifs <;> rfl

/-- The events emitted by a `stopRecording` run, in closed form. -/
theorem stopRecording_snd (s : AppState) :
    (stopRecording s).2 =
      if !s.isRecording && !s.mediaStream && !s.inputAudioContext then []
      else
        (if natTruthy s.part2TimerInterval
          then [CleanupEvent.clearPartTimer] else []) ++
        (if natTruthy s.creditUsageInterval
          then [CleanupEvent.clearCreditTimer] else []) ++
        (if s.transcripts.length > 0
          then saveCurrentSessionHistory s ++ processMissingFeedback s
          else []) ++
        (if s.session.isSome then [CleanupEvent.closeSession] else []) ++
        (if s.scriptProcessorNode && s.sourceNode && s.inputAudioContext
          then [CleanupEvent.disconnectCapture] else []) ++
        (if s.mediaStream then [CleanupEvent.releaseMedia] else []) := by
  simp only [stopRecording, carryPart2Topic_eq, clearPart2TimerStep_eq,
    clearCreditTimerStep_eq, closeSessionStep_eq, disconnectStep,
    releaseMediaStep_eq, persistStep, saveCurrentSessionHistory,
    processMissingFeedback]
  split_ifs <;> rfl

/-- Events that persist the transcript. -/
def isPersistEvent : CleanupEvent → Bool
  | CleanupEvent.persistTranscript _ _ => true
  | _ => false

/-- Events of the persistence block (transcript insert and feedback
processing), the only block not guarded by a flag that the first
`stopRecording` call clears. -/
def persistOrFeedback : CleanupEvent → Bool
  | CleanupEvent.persistTranscript _ _ => true
  | CleanupEvent.processFeedback => true
  | _ => false

/-- A mid-recording state: signed in, recording part 1, one transcript
line, an open session, live capture wiring and a running credit timer. -/
def stopTwiceState : AppState :=
  { isRecording := true
    transcripts := [⟨Speaker.candidate, "Hello"⟩]
    supabaseSession := true
    currentSessionId := some 7
    nextUuid := 8
    userCredits := some 100
    isOutOfCreditsModalOpen := false
    creditUsageInterval := some 3
    currentPart := some PartId.part1
    part2State := Part2Phase.idle
    part2CueCard := none
    part2Topic := none
    part2TopicForPart3 := none
    part2PreparationTimeLeft := 60
    part2SpeakingTimeLeft := 120
    part2TimerInterval := none
    isIntroModalOpen := false
    isIntroConfirmed := false
    introModalContent := none
    session := some "instr"
    mediaStream := true
    sourceNode := true
    scriptProcessorNode := true
    inputAudioContext := true }

/-- Counterexample to claim C6: calling `stopRecording` twice from a
mid-recording state emits the transcript-persistence event twice (the
transcript list is never cleared by stop, so the persistence block
re-runs), so that cleanup step is not executed exactly once. -/
theorem stop_twice_persists_twice :
    (((stopRecording stopTwiceState).2 ++
        (stopRecording (stopRecording stopTwiceState).1).2).filter
        isPersistEvent).length = 2 := by decide

/-- Claim C6 (amended): calling `stopRecording` twice produces the same
end state as calling it once, and the one-shot cleanup steps (timer
cancellations, session close, capture disconnection, media release)
execute at most once, only in the first call; however the
transcript-persistence block is re-executed by the second call whenever
the transcript list is nonempty, so persistence is not executed exactly
once. -/
theorem natTruthy_cleared (x : Option Nat) :
    natTruthy (if natTruthy x then none else x) = false := by
  by_cases h : natTruthy x = true
  · rw [if_pos h]; rfl
  · rw [if_neg h]; simpa using h

theorem stop_recording_idem_fst (s : AppState) :
    (stopRecording (stopRecording s).1).1 = (stopRecording s).1 := by
  by_cases hg :
      (!s.isRecording && !s.mediaStream && !s.inputAudioContext) = true
  · have h1 : (stopRecording s).1 = s := by rw [stopRecording_fst, if_pos hg]
    rw [h1]
    exact h1
  · have h1 := stopRecording_fst s
    rw [if_neg hg] at h1
    rw [h1, stopRecording_fst]
    by_cases hiac : s.inputAudioContext = true
    · rw [if_neg (by simp [hiac])]
      ext <;> simp [natTruthy_cleared] <;> split_ifs <;> (intros; simp_all)
    · rw [if_pos (by simp only [Bool.not_eq_true] at hiac; simp [hiac])]

theorem stop_recording_second_events (s : AppState) :
    (stopRecording (stopRecording s).1).2.all persistOrFeedback = true := by
  by_cases hg :
      (!s.isRecording && !s.mediaStream && !s.inputAudioContext) = true
  · have h1 : (stopRecording s).1 = s := by rw [stopRecording_fst, if_pos hg]
    rw [h1, stopRecording_snd, if_pos hg]
    rfl
  · have h1 := stopRecording_fst s
    rw [if_neg hg] at h1
    rw [h1, stopRecording_snd]
    by_cases hiac : s.inputAudioContext = true
    · rw [if_neg (by simp [hiac])]
      simp only [natTruthy_cleared, Bool.false_eq_true, if_false,
        Option.isSome_none, Bool.and_false, List.nil_append, List.append_nil]
      split_ifs <;>
        simp_all [saveCurrentSessionHistory, processMissingFeedback,
          persistOrFeedback]
    · rw [if_pos (by simp only [Bool.not_eq_true] at hiac; simp [hiac])]
      rfl

/-- Claim C6 (amended): calling `stopRecording` twice produces the same
end state as calling it once, and the second call emits only
transcript-persistence / feedback events — the session close, capture
disconnection, media release and timer cancellations only happen in the
first call; the transcript-persistence block, however, is re-executed by
the second call whenever the transcript list is nonempty, so it is not
executed exactly once. -/
theorem stop_recording_idempotent_state (s : AppState) :
    (stopRecording (stopRecording s).1).1 = (stopRecording s).1 ∧
    (stopRecording (stopRecording s).1).2.all persistOrFeedback = true :=
  ⟨stop_recording_idem_fst s, stop_recording_second_events s⟩

/-- `deductCredits` (lines 1862-1884): guard
`if (!isRecording || userCredits === null) return;`, then the external
`supabase.rpc('deduct_credits', ...)` call, whose outcome is a parameter:
`none` models a returned error (early return), `some bal` the new balance;
a balance of zero or below force-stops the current session and opens the
out-of-credits modal.  The third component records whether the rpc was
invoked. -/
def deductCredits (s : AppState) (rpcResult : Option Int) :
    AppState × List CleanupEvent × Bool :=
  if !s.isRecording || s.userCredits.isNone then (s, [], false)
  else
    match rpcResult with
    | none => (s, [], true)
    | some bal =>
        let s := { s with userCredits := some bal }
        if bal ≤ 0 then
          let r := stopCurrentSession s
          ({ r.1 with isOutOfCreditsModalOpen := true }, r.2, true)
        else (s, [], true)

/-- Claim C8: during recording with a cached balance, a failed
balance-decrement call leaves the state (hence the local credit balance
and the recording flag) unchanged — fail-open; a successful call
returning a balance of zero or below force-stops the session (recording
off, session closed) and opens the out-of-credits upgrade prompt. -/
theorem credit_deduction_spec (s : AppState) (bal c : Int)
    (hrec : s.isRecording = true) (hc : s.userCredits = some c) :
    deductCredits s none = (s, [], true) ∧
    (bal ≤ 0 →
      (deductCredits s (some bal)).1.isRecording = false ∧
      (deductCredits s (some bal)).1.session = none ∧
      (deductCredits s (some bal)).1.isOutOfCreditsModalOpen = true ∧
      (deductCredits s (some bal)).1.userCredits = some bal) := by
  have hguard : (!s.isRecording || s.userCredits.isNone) = false := by
    simp [hrec, hc]
  constructor
  · simp [deductCredits, hguard]
  · intro hbal
    have hstep : deductCredits s (some bal) =
        ({ (stopCurrentSession { s with userCredits := some bal }).1 with
            isOutOfCreditsModalOpen := true },
          (stopCurrentSession { s with userCredits := some bal }).2,
          true) := by
      simp only [deductCredits, hguard, Bool.false_eq_true, if_false,
        if_pos hbal]
    have hstop : stopCurrentSession { s with userCredits := some bal } =
        stopRecording { s with userCredits := some bal } := by
      unfold stopCurrentSession
      rw [if_pos]
      exact hrec
    rw [hstep, hstop, stopRecording_fst,
      if_neg (by simp [hrec] : ¬(!({ s with userCredits := some bal } :
        AppState).isRecording && !({ s with userCredits := some bal } :
        AppState).mediaStream && !({ s with userCredits := some bal } :
        AppState).inputAudioContext) = true)]
    exact ⟨rfl, rfl, rfl, rfl⟩

/-- Concrete instantiation of the C8 theorem: from a mid-recording state,
a failed rpc changes nothing, and a returned balance of 0 stops
recording. -/
theorem credit_deduction_spec_witness :
    deductCredits stopTwiceState none = (stopTwiceState, [], true) ∧
    (deductCredits stopTwiceState (some 0)).1.isRecording = false ∧
    (deductCredits stopTwiceState (some 0)).1.isOutOfCreditsModalOpen
      = true := by
  have h := credit_deduction_spec stopTwiceState 0 100 rfl rfl
  exact ⟨h.1, (h.2 (by decide)).1, (h.2 (by decide)).2.2.1⟩

/-- Claim C10: a credit-poll tick after recording has stopped (or with no
cached balance) is a no-op: the rpc is not invoked and the state is
unchanged; and `stopRecording` cancels the credit-polling timer
(timer ids returned by `window.setInterval` are positive). -/
theorem credit_poll_stop_guard_spec (s t : AppState) (r : Option Int)
    (hguard : s.isRecording = false ∨ s.userCredits = none)
    (hrec : t.isRecording = true)
    (htimer : ∀ n, t.creditUsageInterval = some n → 0 < n) :
    deductCredits s r = (s, [], false) ∧
    (stopRecording t).1.creditUsageInterval = none := by
  constructor
  · have hg : (!s.isRecording || s.userCredits.isNone) = true := by
      rcases hguard with h | h <;> simp [h]
    simp [deductCredits, hg]
  · rw [stopRecording_fst, if_neg (by simp [hrec])]
    show (if natTruthy t.creditUsageInterval then none
      else t.creditUsageInterval) = none
    cases hcti : t.creditUsageInterval with
    | none => simp [natTruthy]
    | some n =>
        have hn := htimer n hcti
        simp [natTruthy, Nat.pos_iff_ne_zero.mp hn]

/-- Concrete instantiation of the C10 theorem. -/
theorem credit_poll_stop_guard_spec_witness :
    deductCredits { stopTwiceState with isRecording := false } none =
      ({ stopTwiceState with isRecording := false }, [], false) ∧
    (stopRecording stopTwiceState).1.creditUsageInterval = none := by
  have h := credit_poll_stop_guard_spec
    { stopTwiceState with isRecording := false } stopTwiceState none
    (Or.inl rfl) rfl (by intro n hn; cases hn; decide)
  exact h

/-- Claim C9: if the credit and re-entry guards pass but opening the live
session fails to produce a session object, `startRecording` returns
before requesting microphone access: the recording flag stays false and
no media stream or capture wiring is created, but the transcript list has
already been cleared and a fresh session id already assigned, and these
resets are not rolled back. -/
theorem start_recording_connect_failure_spec (s : AppState) (env : Env)
    (instr : String)
    (hcred : creditsExhausted s.userCredits = false)
    (hrec : s.isRecording = false)
    (hsess : s.session = none)
    (hconn : env.connectOk = false)
    (hfresh : s.currentSessionId ≠ some s.nextUuid) :
    startRecording s env instr =
      ({ s with
          transcripts := []
          currentSessionId := some s.nextUuid
          nextUuid := s.nextUuid + 1 }, []) ∧
    (startRecording s env instr).1.isRecording = false ∧
    (startRecording s env instr).1.mediaStream = s.mediaStream ∧
    (startRecording s env instr).1.sourceNode = s.sourceNode ∧
    (startRecording s env instr).1.scriptProcessorNode
      = s.scriptProcessorNode ∧
    (startRecording s env instr).1.currentSessionId
      ≠ s.currentSessionId := by
  have he : startRecording s env instr =
      ({ s with
          transcripts := []
          currentSessionId := some s.nextUuid
          nextUuid := s.nextUuid + 1 }, []) := by
    simp [startRecording, hcred, hrec, hconn, hsess]
  refine ⟨he, ?_, ?_, ?_, ?_, ?_⟩ <;> rw [he]
  · exact hrec
  · exact fun hcontra => hfresh hcontra.symm

/-- Concrete instantiation of the C9 theorem: a connect failure leaves an
idle state idle but with the transcript cleared and a new session id. -/
theorem start_recording_connect_failure_spec_witness :
    (startRecording
        { stopTwiceState with isRecording := false, session := none }
        ⟨false, true, 5⟩ "i").1.isRecording = false ∧
    (startRecording
        { stopTwiceState with isRecording := false, session := none }
        ⟨false, true, 5⟩ "i").1.mediaStream = true ∧
    (startRecording
        { stopTwiceState with isRecording := false, session := none }
        ⟨false, true, 5⟩ "i").1.currentSessionId ≠ some 7 := by
  have h := start_recording_connect_failure_spec
    { stopTwiceState with isRecording := false, session := none }
    ⟨false, true, 5⟩ "i" (by decide) rfl rfl rfl (by decide)
  exact ⟨h.2.1, h.2.2.1, h.2.2.2.2.2⟩

/-- The Part 1 system instruction (lines 373-376). -/
def PART1_INSTRUCTION : String :=
  "You are an IELTS examiner conducting Part 1 of the speaking test.\nAsk the candidate around 11-12 questions on 3 different general topics.\nKeep your questions concise. The user is the candidate.\nStart the conversation by asking your first question now."

/-- The Part 2 system instruction (line 378). -/
def PART2_INSTRUCTION : String :=
  "You are an IELTS examiner for Part 2 of the speaking test. The candidate will now speak for 1-2 minutes. Your task is to listen silently without speaking or interrupting."

/-- Text of `PART3_INSTRUCTION_TEMPLATE` before the interpolated topic. -/
def part3InstructionHead : String :=
  "You are an IELTS examiner conducting Part 3 of the speaking test.\nThe topic is a follow-up to Part 2, which was about '"

/-- Text of `PART3_INSTRUCTION_TEMPLATE` after the interpolated topic. -/
def part3InstructionTail : String :=
  "'.\nYour role is to ask abstract and opinion-based questions related to this topic.\nKeep your questions concise and ask only one question at a time.\nDo not provide your own opinions, explanations, or long statements.\nAfter the candidate responds, listen carefully and then ask a relevant follow-up question.\nThe goal is to simulate a real two-way discussion for 4-5 minutes.\nStart the conversation now by asking your first question."

/-- `PART3_INSTRUCTION_TEMPLATE` (lines 380-388): the remembered Part 2
topic is interpolated into the instruction text. -/
def PART3_INSTRUCTION_TEMPLATE (topic : String) : String :=
  part3InstructionHead ++ topic ++ part3InstructionTail

/-- The examiner message shown when Part 3 is selected too early
(lines 1684-1690). -/
def part3RejectionText : String :=
  "Please complete Part 2 before starting Part 3."

/-- `handlePartSelect` (lines 1642-1706): stop any current session,
credit gate, reset of the per-part state (including the Part 2 phase,
cue card and topic — but not the carried-forward `part2TopicForPart3`),
then per-part handling; selecting part 3 without a carried-forward topic
replaces the transcript with a rejection message and returns before the
intro modal is opened. -/
def handlePartSelect (s : AppState) (part : PartId) :
    AppState × List CleanupEvent :=
  let r := stopCurrentSession s
  let s := r.1
  if creditsExhausted s.userCredits then
    ({ s with isOutOfCreditsModalOpen := true }, r.2)
  else
    let s :=
      { s with
        currentPart := some part
        transcripts := []
        part2CueCard := none
        part2Topic := none
        part2State := Part2Phase.idle
        part2PreparationTimeLeft := 60
        part2SpeakingTimeLeft := 120 }
    match part with
    | PartId.part1 =>
        ({ s with
            introModalContent := some PartId.part1
            isIntroConfirmed := false
            isIntroModalOpen := true }, r.2)
    | PartId.part2 =>
        ({ s with
            introModalContent := some PartId.part2
            isIntroConfirmed := false
            isIntroModalOpen := true }, r.2)
    | PartId.part3 =>
        if !strTruthy s.part2TopicForPart3 then
          ({ s with
              transcripts := [⟨Speaker.examiner, part3RejectionText⟩] },
            r.2)
        else
          ({ s with
              introModalContent := some PartId.part3
              isIntroConfirmed := false
              isIntroModalOpen := true }, r.2)

/-- Parsed result of the external cue-card generation call. -/
structure GenResult where
  topic : String
  description : String
  points : List String
deriving DecidableEq

/-- `startPart2Preparation` (lines 1776-1788): enter the preparing phase
with a fresh 60 s countdown timer. -/
def startPart2Preparation (s : AppState) (timerId : Nat) : AppState :=
  { s with
    part2State := Part2Phase.preparing
    part2PreparationTimeLeft := 60
    part2TimerInterval := some timerId }

/-- `generateCueCard` (lines 1729-1774): on success store the topic and
cue card, clear the generating message and start preparation; on failure
show an inline error and return the phase to idle. -/
def generateCueCard (s : AppState) (res : Option GenResult)
    (timerId : Nat) : AppState :=
  match res with
  | some r =>
      startPart2Preparation
        { s with
          part2Topic := some r.topic
          part2CueCard := some ⟨r.description, r.points⟩
          transcripts := [] } timerId
  | none =>
      { s with
        transcripts := [⟨Speaker.examiner,
          "Sorry, there was an error generating the cue card. Please try again."⟩]
        part2State := Part2Phase.idle }

/-- `handleStartPart` (lines 1708-1727): close the intro modal, then
start the selected part; part 1 and part 3 open a live session (part 3
only when a carried-forward topic exists, interpolated into its
instruction), part 2 shows the generating message and runs the cue-card
generation. -/
def handleStartPart (s : AppState) (env : Env) (gen : Option GenResult) :
    AppState × List CleanupEvent :=
  let s := { s with isIntroModalOpen := false }
  match s.currentPart with
  | none => (s, [])
  | some PartId.part1 => startRecording s env PART1_INSTRUCTION
  | some PartId.part2 =>
      (generateCueCard
        { s with
          part2State := Part2Phase.generating
          transcripts := [⟨Speaker.examiner,
            "Generating your Part 2 cue card..."⟩] } gen env.timerId, [])
  | some PartId.part3 =>
      if strTruthy s.part2TopicForPart3 then
        startRecording s env
          (PART3_INSTRUCTION_TEMPLATE (s.part2TopicForPart3.getD ""))
      else (s, [])

/-- A state in the middle of Part 2 preparation: a cue card and topic
exist but Part 2 has not finished, so no topic has been carried forward
to Part 3. -/
def part3EarlyState : AppState :=
  { stopTwiceState with
    isRecording := false
    session := none
    mediaStream := false
    sourceNode := false
    scriptProcessorNode := false
    creditUsageInterval := none
    currentPart := some PartId.part2
    part2State := Part2Phase.preparing
    part2CueCard := some ⟨"Describe a memorable trip.", ["where", "when"]⟩
    part2Topic := some "Travel"
    part2TopicForPart3 := none
    part2TimerInterval := some 2 }

/-- Counterexample to claim C5: selecting Part 3 during Part 2
preparation (no carried-forward topic) does show the rejection message
without opening the intro modal or a session, but it does NOT leave the
conversation state unchanged: the current part becomes part3 and the
Part 2 phase, cue card and topic are reset. -/
theorem part3_early_select_changes_state :
    (handlePartSelect part3EarlyState PartId.part3).1.transcripts =
      [⟨Speaker.examiner, part3RejectionText⟩] ∧
    (handlePartSelect part3EarlyState PartId.part3).1.isIntroModalOpen
      = false ∧
    (handlePartSelect part3EarlyState PartId.part3).1.session = none ∧
    (handlePartSelect part3EarlyState PartId.part3).1.part2State
      ≠ part3EarlyState.part2State ∧
    (handlePartSelect part3EarlyState PartId.part3).1.currentPart
      ≠ part3EarlyState.currentPart ∧
    (handlePartSelect part3EarlyState PartId.part3).1.part2CueCard
      ≠ part3EarlyState.part2CueCard ∧
    (handlePartSelect part3EarlyState PartId.part3).1
      ≠ part3EarlyState := by decide

/-- Claim C5 (amended): selecting Part 3 before Part 2 has finished is
rejected — the transcript is replaced by a user-visible examiner message,
the intro modal is not opened and no session is started — but the
selection is not a no-op: the current part is set to part3 and the
Part 2 phase state, cue card and topic are reset.  Once Part 2 has
finished (a topic was carried forward), selecting Part 3 opens its intro
modal and starting it opens a session whose system instruction is the
Part 3 template with the captured topic interpolated. -/
theorem part3_selection_spec (s : AppState) (env : Env)
    (gen : Option GenResult) (t : String)
    (hnr : s.isRecording = false)
    (hcred : creditsExhausted s.userCredits = false) :
    (strTruthy s.part2TopicForPart3 = false →
      handlePartSelect s PartId.part3 =
        ({ s with
            currentPart := some PartId.part3
            transcripts := [⟨Speaker.examiner, part3RejectionText⟩]
            part2CueCard := none
            part2Topic := none
            part2State := Part2Phase.idle
            part2PreparationTimeLeft := 60
            part2SpeakingTimeLeft := 120 }, [])) ∧
    (s.part2TopicForPart3 = some t → t ≠ "" → env.connectOk = true →
      env.micOk = true →
      (handlePartSelect s PartId.part3).1.isIntroModalOpen = true ∧
      (handlePartSelect s PartId.part3).1.introModalContent
        = some PartId.part3 ∧
      (handleStartPart (handlePartSelect s PartId.part3).1 env
        gen).1.session = some (PART3_INSTRUCTION_TEMPLATE t) ∧
      (handleStartPart (handlePartSelect s PartId.part3).1 env
        gen).1.isRecording = true) ∧
    (∀ topic, PART3_INSTRUCTION_TEMPLATE topic =
      part3InstructionHead ++ topic ++ part3InstructionTail) := by
  refine ⟨?_, ?_, fun _ => rfl⟩
  · intro hno
    simp [handlePartSelect, stopCurrentSession, hnr, hcred, hno]
  · intro htop ht hconn hmic
    have ht' : (t != "") = true := by simpa using ht
    have hsel : handlePartSelect s PartId.part3 =
        ({ s with
            currentPart := some PartId.part3
            transcripts := []
            part2CueCard := none
            part2Topic := none
            part2State := Part2Phase.idle
            part2PreparationTimeLeft := 60
            part2SpeakingTimeLeft := 120
            introModalContent := some PartId.part3
            isIntroConfirmed := false
            isIntroModalOpen := true }, []) := by
      simp [handlePartSelect, stopCurrentSession, hnr, hcred, htop,
        strTruthy, ht']
    rw [hsel]
    refine ⟨rfl, rfl, ?_⟩
    simp [handleStartPart, startRecording, htop, strTruthy, ht', hcred,
      hnr, hconn, hmic]

/-- A state in which Part 2 has finished and its topic was carried
forward for Part 3. -/
def part3DoneState : AppState :=
  { part3EarlyState with
    part2TopicForPart3 := some "Travel"
    part2State := Part2Phase.finished
    part2TimerInterval := none }

/-- Concrete instantiation of the C5 theorem: after Part 2 finished with
topic "Travel", selecting and starting Part 3 opens a session whose
instruction carries the topic. -/
theorem part3_selection_spec_witness :
    (handlePartSelect part3DoneState PartId.part3).1.isIntroModalOpen
      = true ∧
    (handleStartPart (handlePartSelect part3DoneState PartId.part3).1
      ⟨true, true, 4⟩ none).1.session
      = some (PART3_INSTRUCTION_TEMPLATE "Travel") := by
  have h := (part3_selection_spec part3DoneState ⟨true, true, 4⟩ none
    "Travel" rfl (by decide)).2.1 rfl (by decide) rfl rfl
  exact ⟨h.1, h.2.2.1⟩

/-! ## Capture callback (`onaudioprocess`) -/

/-- Result of one capture-callback invocation. -/
inductive CaptureAction where
  | dropped
  | sent (frame : List ℚ)
  | sendOnAbsentSession
deriving DecidableEq

/-- The `onaudioprocess` callback of `src/index.tsx` (lines 636-643) and
of the IELTS component (`src/unnamed/part_001` lines 1568-1575):
`if (!this.isRecording || !this.session) return;`, then the frame is
encoded and sent with `session.sendRealtimeInput(...)`. -/
def onAudioProcessMain (isRecording : Bool) (session : Option String)
    (frame : List ℚ) : CaptureAction :=
  if !isRecording || session.isNone then CaptureAction.dropped
  else CaptureAction.sent frame

/-- The `onaudioprocess` callback of the first component of
`src/unnamed/part_001` (lines 284-291): the guard checks only
`if (!this.isRecording) return;`; the subsequent
`this.session.sendRealtimeInput(...)` dereferences the session field, so
with no session present a send on an absent session is attempted instead
of the frame being dropped. -/
def onAudioProcessSimple (isRecording : Bool) (session : Option String)
    (frame : List ℚ) : CaptureAction :=
  if !isRecording then CaptureAction.dropped
  else
    match session with
    | some _ => CaptureAction.sent frame
    | none => CaptureAction.sendOnAbsentSession

/-- Counterexample to claim C7: in the first-component variant, with the
recording flag set and no session object, the callback does not drop the
frame — it reaches the send call on the absent session. -/
theorem capture_callback_sends_without_session :
    onAudioProcessSimple true none [0] ≠ CaptureAction.dropped ∧
    onAudioProcessSimple true none [0]
      = CaptureAction.sendOnAbsentSession := by decide

/-- Claim C7 (amended): in the `src/index.tsx` / IELTS-component
callback, a frame arriving while the recording flag is false or no
session exists is silently dropped and the send is never reached; in the
first-component variant only the recording flag gates the callback, so a
frame is dropped when recording is off, but when recording is on with no
session the send call is reached on the absent session. -/
theorem capture_callback_guard_spec (rec : Bool) (sess : Option String)
    (frame : List ℚ) :
    ((rec = false ∨ sess = none) →
      onAudioProcessMain rec sess frame = CaptureAction.dropped) ∧
    (rec = true → sess ≠ none →
      onAudioProcessMain rec sess frame = CaptureAction.sent frame) ∧
    (rec = false →
      onAudioProcessSimple rec sess frame = CaptureAction.dropped) ∧
    (rec = true → sess = none →
      onAudioProcessSimple rec sess frame
        = CaptureAction.sendOnAbsentSession) := by
  refine ⟨?_, ?_, ?_, ?_⟩
  · rintro (h | h) <;> simp [onAudioProcessMain, h]
  · intro h1 h2
    cases sess with
    | none => exact absurd rfl h2
    | some v => simp [onAudioProcessMain, h1]
  · intro h
    simp [onAudioProcessSimple, h]
  · intro h1 h2
    subst h2
    simp [onAudioProcessSimple, h1]

/-- Concrete instantiation of the C7 theorem: a frame arriving with
recording off is dropped by both variants. -/
theorem capture_callback_guard_spec_witness :
    onAudioProcessMain false (some "i") [1] = CaptureAction.dropped ∧
    onAudioProcessSimple false (some "i") [1] = CaptureAction.dropped :=
  ⟨(capture_callback_guard_spec false (some "i") [1]).1 (Or.inl rfl),
    (capture_callback_guard_spec false (some "i") [1]).2.2.1 rfl⟩

/-! ## PCM codec

Modelled from the spec: the codec implementation (`utils.ts`, imported by
every component as `createBlob`, `decode` and `decodeAudioData`) is not
among the provided sources — only its import and call sites are — so the
definitions below follow §4.2 of the spec: multiply each float sample by
32768, convert to a 16-bit signed integer clamped by the conversion
range, pack little-endian, base64-encode; decoding is the inverse with a
final division by 32768. -/

/-- Truncation toward zero, the JS number-to-integer conversion. -/
def ratTrunc (x : ℚ) : ℤ := if 0 ≤ x then ⌊x⌋ else ⌈x⌉

/-- Modelled from the spec: a float sample is mapped to a 16-bit signed
integer by multiplying by 32768 and clamping implicitly by the
conversion range. -/
def sampleToInt16 (x : ℚ) : ℤ :=
  max (-32768) (min 32767 (ratTrunc (x * 32768)))

/-- Little-endian two's-complement byte pair of a 16-bit signed value. -/
def int16ToBytes (i : ℤ) : List Nat :=
  let u := (i % 65536).toNat
  [u % 256, u / 256]

/-- Recover the signed 16-bit value from a little-endian byte pair. -/
def bytesToInt16 (lo hi : Nat) : ℤ :=
  let u := lo + 256 * hi
  if u < 32768 then (u : ℤ) else (u : ℤ) - 65536

/-- Byte stream of an encoded frame: each sample packed little-endian. -/
def pcmEncodeBytes : List ℚ → List Nat
  | [] => []
  | x :: rest => int16ToBytes (sampleToInt16 x) ++ pcmEncodeBytes rest

/-- Modelled from the spec: interpret bytes as little-endian 16-bit PCM
(mono) and rescale each sample by dividing by 32768; fails
(`MalformedAudioError`) when the byte length is odd. -/
def decodePcmBytes : List Nat → Option (List ℚ)
  | [] => some []
  | lo :: hi :: rest =>
      (decodePcmBytes rest).map
        fun r => ((bytesToInt16 lo hi : ℚ) / 32768) :: r
  | [_] => none

/-- The base64 alphabet. -/
def base64Chars : List Char :=
  ['A', 'B', 'C', 'D', 'E', 'F', 'G', 'H', 'I', 'J', 'K', 'L', 'M',
    'N', 'O', 'P', 'Q', 'R', 'S', 'T', 'U', 'V', 'W', 'X', 'Y', 'Z',
    'a', 'b', 'c', 'd', 'e', 'f', 'g', 'h', 'i', 'j', 'k', 'l', 'm',
    'n', 'o', 'p', 'q', 'r', 's', 't', 'u', 'v', 'w', 'x', 'y', 'z',
    '0', '1', '2', '3', '4', '5', '6', '7', '8', '9', '+', '/']

/-- The base64 digit for a 6-bit value. -/
def b64Char (n : Nat) : Char := base64Chars.getD n '?'

def b64IndexAux : List Char → Nat → Char → Option Nat
  | [], _, _ => none
  | c :: cs, i, target =>
      if c = target then some i else b64IndexAux cs (i + 1) target

/-- The 6-bit value of a base64 digit. -/
def b64Value (c : Char) : Option Nat := b64IndexAux base64Chars 0 c

/-- Standard base64 encoding of a byte list, with `=` padding. -/
def base64Encode : List Nat → List Char
  | [] => []
  | [b1] => [b64Char (b1 / 4), b64Char (b1 % 4 * 16), '=', '=']
  | [b1, b2] =>
      [b64Char (b1 / 4), b64Char (b1 % 4 * 16 + b2 / 16),
        b64Char (b2 % 16 * 4), '=']
  | b1 :: b2 :: b3 :: rest =>
      b64Char (b1 / 4) :: b64Char (b1 % 4 * 16 + b2 / 16) ::
        b64Char (b2 % 16 * 4 + b3 / 64) :: b64Char (b3 % 64) ::
        base64Encode rest

/-- Modelled from the spec: inverse of the base64 step; fails
(`DecodeError`) on malformed input. -/
def decodeBase64 : List Char → Option (List Nat)
  | [] => some []
  | c1 :: c2 :: c3 :: c4 :: rest =>
      match b64Value c1, b64Value c2 with
      | some v1, some v2 =>
          if c3 = '=' ∧ c4 = '=' ∧ rest = [] then
            some [v1 * 4 + v2 / 16]
          else
            match b64Value c3 with
            | some v3 =>
                if c4 = '=' ∧ rest = [] then
                  some [v1 * 4 + v2 / 16, v2 % 16 * 16 + v3 / 4]
                else
                  match b64Value c4, decodeBase64 rest with
                  | some v4, some r =>
                      some ((v1 * 4 + v2 / 16) :: (v2 % 16 * 16 + v3 / 4) ::
                        (v3 % 4 * 64 + v4) :: r)
                  | _, _ => none
            | none => none
      | _, _ => none
  | _ => none

/-- Modelled from the spec: `encodeFrame` packs the 16-bit samples
little-endian and base64-encodes the byte buffer. -/
def encodeFrame (samples : List ℚ) : List Char :=
  base64Encode (pcmEncodeBytes samples)

/-- Modelled from the spec: the inbound decode path, `decodeAudioData`
composed with the base64 decode, at the fixed mono channel count. -/
def decodeAudioData (payload : List Char) : Option (List ℚ) :=
  match decodeBase64 payload with
  | some bytes => decodePcmBytes bytes
  | none => none

theorem b64Value_b64Char : ∀ v < 64, b64Value (b64Char v) = some v := by
  decide

theorem b64Char_ne_pad : ∀ v < 64, b64Char v ≠ '=' := by decide

theorem int16ToBytes_lt (i : ℤ) :
    ∀ b ∈ int16ToBytes i, b < 256 := by
  intro b hb
  simp only [int16ToBytes, List.mem_cons, List.not_mem_nil, or_false]
    at hb
  rcases hb with h | h <;> subst h <;> omega

theorem pcmEncodeBytes_lt (samples : List ℚ) :
    ∀ b ∈ pcmEncodeBytes samples, b < 256 := by
  induction samples with
  | nil => intro b hb; simp [pcmEncodeBytes] at hb
  | cons x rest ih =>
      intro b hb
      simp only [pcmEncodeBytes, List.mem_append] at hb
      rcases hb with h | h
      · exact int16ToBytes_lt _ b h
      · exact ih b h

theorem base64_roundtrip (bytes : List Nat)
    (hb : ∀ b ∈ bytes, b < 256) :
    decodeBase64 (base64Encode bytes) = some bytes := by
  induction bytes using base64Encode.induct with
  | case1 => rfl
  | case2 b1 =>
      have h1 : b1 < 256 := hb b1 (by simp)
      simp only [base64Encode, decodeBase64,
        b64Value_b64Char (b1 / 4) (by omega),
        b64Value_b64Char (b1 % 4 * 16) (by omega)]
      rw [if_pos (by simp)]
      congr 1
      congr 1
      omega
  | case3 b1 b2 =>
      have h1 : b1 < 256 := hb b1 (by simp)
      have h2 : b2 < 256 := hb b2 (by simp)
      simp only [base64Encode, decodeBase64,
        b64Value_b64Char (b1 / 4) (by omega),
        b64Value_b64Char (b1 % 4 * 16 + b2 / 16) (by omega)]
      rw [if_neg (fun hcon => b64Char_ne_pad (b2 % 16 * 4) (by omega)
        hcon.1)]
      simp only [b64Value_b64Char (b2 % 16 * 4) (by omega)]
      rw [if_pos (by simp)]
      congr 1
      have e1 : b1 / 4 * 4 + (b1 % 4 * 16 + b2 / 16) / 16 = b1 := by omega
      have e2 : (b1 % 4 * 16 + b2 / 16) % 16 * 16 + b2 % 16 * 4 / 4 = b2 := by
        omega
      rw [e1, e2]
  | case4 b1 b2 b3 rest ih =>
      have h1 : b1 < 256 := hb b1 (by simp)
      have h2 : b2 < 256 := hb b2 (by simp)
      have h3 : b3 < 256 := hb b3 (by simp)
      have hrest : ∀ b ∈ rest, b < 256 := fun b h => hb b (by simp [h])
      simp only [base64Encode, decodeBase64,
        b64Value_b64Char (b1 / 4) (by omega),
        b64Value_b64Char (b1 % 4 * 16 + b2 / 16) (by omega)]
      rw [if_neg (fun hcon => b64Char_ne_pad (b2 % 16 * 4 + b3 / 64)
        (by omega) hcon.1)]
      simp only [b64Value_b64Char (b2 % 16 * 4 + b3 / 64) (by omega)]
      rw [if_neg (fun hcon => b64Char_ne_pad (b3 % 64) (by omega) hcon.1)]
      simp only [b64Value_b64Char (b3 % 64) (by omega), ih hrest]
      congr 1
      have e1 : b1 / 4 * 4 + (b1 % 4 * 16 + b2 / 16) / 16 = b1 := by omega
      have e2 : (b1 % 4 * 16 + b2 / 16) % 16 * 16 +
          (b2 % 16 * 4 + b3 / 64) / 4 = b2 := by omega
      have e3 : (b2 % 16 * 4 + b3 / 64) % 4 * 64 + b3 % 64 = b3 := by omega
      rw [e1, e2, e3]

theorem sampleToInt16_bounds (x : ℚ) :
    -32768 ≤ sampleToInt16 x ∧ sampleToInt16 x ≤ 32767 :=
  ⟨le_max_left _ _, max_le (by omega) (min_le_left _ _)⟩

theorem bytesToInt16_int16ToBytes (i : ℤ)
    (h1 : -32768 ≤ i) (h2 : i ≤ 32767) :
    bytesToInt16 ((i % 65536).toNat % 256) ((i % 65536).toNat / 256)
      = i := by
  simp only [bytesToInt16]
  split_ifs with h <;> omega

theorem decodePcm_encode (samples : List ℚ) :
    decodePcmBytes (pcmEncodeBytes samples) =
      some (samples.map fun x => (sampleToInt16 x : ℚ) / 32768) := by
  induction samples with
  | nil => rfl
  | cons x rest ih =>
      have hb := sampleToInt16_bounds x
      simp [pcmEncodeBytes, int16ToBytes, decodePcmBytes, ih,
        bytesToInt16_int16ToBytes _ hb.1 hb.2]

theorem sampleToInt16_error (x : ℚ) (h1 : -1 ≤ x) (h2 : x ≤ 1) :
    |x - (sampleToInt16 x : ℚ) / 32768| ≤ 1 / 32768 := by
  have hv1 : (-32768 : ℚ) ≤ x * 32768 := by linarith
  have hv2 : x * 32768 ≤ 32768 := by linarith
  set v : ℚ := x * 32768 with hv
  have key : |v - (sampleToInt16 x : ℚ)| ≤ 1 := by
    unfold sampleToInt16 ratTrunc
    rw [← hv]
    by_cases h0 : (0 : ℚ) ≤ v
    · rw [if_pos h0]
      have hfl : (⌊v⌋ : ℚ) ≤ v := Int.floor_le v
      have hfu : v < ⌊v⌋ + 1 := Int.lt_floor_add_one v
      have hflb : (0 : ℤ) ≤ ⌊v⌋ := Int.floor_nonneg.mpr h0
      by_cases hc : ⌊v⌋ ≤ 32767
      · have hmm : max (-32768) (min 32767 ⌊v⌋) = ⌊v⌋ := by
          rw [min_eq_right hc, max_eq_right (by omega)]
        rw [hmm, abs_le]
        constructor <;> linarith
      · have hle : ⌊v⌋ ≤ 32768 := by
          have hq : (⌊v⌋ : ℚ) ≤ 32768 := le_trans hfl hv2
          exact_mod_cast hq
        have h32 : ⌊v⌋ = 32768 := by omega
        have hveq : v = 32768 := by
          rw [h32] at hfl
          push_cast at hfl
          linarith
        rw [h32, hveq]
        norm_num
    · rw [if_neg h0]
      push_neg at h0
      have hcl : v ≤ ⌈v⌉ := Int.le_ceil v
      have hcu : (⌈v⌉ : ℚ) < v + 1 := Int.ceil_lt_add_one v
      have hub : ⌈v⌉ ≤ (0 : ℤ) := Int.ceil_le.mpr (by push_cast; linarith)
      have hlb : (-32768 : ℤ) ≤ ⌈v⌉ := by
        have hq : (-32768 : ℚ) ≤ (⌈v⌉ : ℚ) := le_trans hv1 hcl
        exact_mod_cast hq
      have hmm : max (-32768) (min 32767 ⌈v⌉) = ⌈v⌉ := by
        rw [min_eq_right (by omega), max_eq_right hlb]
      rw [hmm, abs_le]
      constructor <;> linarith
  have hrw : x - (sampleToInt16 x : ℚ) / 32768 =
      (v - (sampleToInt16 x : ℚ)) / 32768 := by
    rw [hv]
    ring
  rw [hrw, abs_div, abs_of_pos (by norm_num : (0 : ℚ) < 32768),
    div_le_div_iff₀ (by norm_num) (by norm_num)]
  linarith [key]

/-- Claim C4: for every finite sample list with values in [-1,1], the
decode path applied to the encoded frame succeeds and reproduces the
samples with per-sample absolute error at most 1/32768. -/
theorem pcm_roundtrip (samples : List ℚ)
    (h : ∀ x ∈ samples, -1 ≤ x ∧ x ≤ 1) :
    ∃ decoded, decodeAudioData (encodeFrame samples) = some decoded ∧
      decoded.length = samples.length ∧
      List.Forall₂ (fun x y => |x - y| ≤ 1 / 32768) samples decoded := by
  refine ⟨samples.map fun x => (sampleToInt16 x : ℚ) / 32768, ?_,
    by simp, ?_⟩
  · unfold decodeAudioData encodeFrame
    rw [base64_roundtrip _ (pcmEncodeBytes_lt samples)]
    exact decodePcm_encode samples
  · rw [List.forall₂_map_right_iff]
    rw [List.forall₂_same]
    intro x hx
    exact sampleToInt16_error x (h x hx).1 (h x hx).2

/-- Concrete instantiation of the C4 theorem on three samples. -/
theorem pcm_roundtrip_witness :
    (∀ x ∈ [(0 : ℚ), 1, -1/2], -1 ≤ x ∧ x ≤ 1) ∧
    ∃ decoded,
      decodeAudioData (encodeFrame [(0 : ℚ), 1, -1/2]) = some decoded ∧
      decoded.length = 3 ∧
      List.Forall₂ (fun x y => |x - y| ≤ 1 / 32768)
        [(0 : ℚ), 1, -1/2] decoded := by
  have hh : ∀ x ∈ [(0 : ℚ), 1, -1/2], -1 ≤ x ∧ x ≤ 1 := by
    intro x hx
    fin_cases hx <;> norm_num
  exact ⟨hh, by simpa using pcm_roundtrip [0, 1, -1/2] hh⟩

end IELTS
